import Mathlib

/-!
Shallow embedding of the seat-reservation core of the MOVIE-TICKET-BOOKING
Django backend (`src/movies/`): the data model (`models.py`), the booking and
cancellation request handlers (`views.py`), the expiry sweep
(`utils.cleanup_expired_bookings` / the `cleanup_expired_bookings` management
command) and the show-creation validation (`serializers.ShowCreateSerializer`).

Times are modelled as `Int` (seconds on an absolute clock); `timedelta
(minutes=30)` is `30*60`, `timedelta(hours=2)` is `2*60*60`, `timedelta
(hours=1)` is `60*60`.  The relational store is modelled as explicit lists of
records; Django querysets `filter(...).first()`, `.count()`, `.exists()` and
`.update(...)` become `List.find?`, `List.countP`, `List.any` and `List.map`.
-/

/-- Booking.STATUS_CHOICES in `models.py`. -/
inductive BookingStatus where
  | booked
  | cancelled
  | expired
deriving DecidableEq, Repr

/-- The `Show` model (`models.py`): the fields the reservation core reads.
`date_time` is the scheduled start instant, `is_active` the active flag. -/
structure ShowRec where
  id : Nat
  movie_id : Nat
  screen_name : String
  date_time : Int
  total_seats : Nat
  price : Int
  is_active : Bool
deriving DecidableEq, Repr

/-- The `Booking` model (`models.py`): the fields the reservation core reads
and writes.  `booking_reference` and `notes` play no role in any claim and are
omitted. -/
structure BookingRec where
  id : Nat
  user_id : Nat
  show_id : Nat
  seat_number : Int
  status : BookingStatus
  cancelled_at : Option Int
  expires_at : Option Int
deriving DecidableEq, Repr

/-- The persistent store: the Catalog Store (shows) plus the Reservation
Ledger (bookings).  `next_booking_id` models the database-assigned primary
key for the next inserted booking. -/
structure Ledger where
  shows : List ShowRec
  bookings : List BookingRec
  next_booking_id : Nat
deriving DecidableEq, Repr

/-- `Show.objects.get(id=show_id)` (`views.py`, `book_seat`). -/
def getShow (s : Ledger) (show_id : Nat) : Option ShowRec :=
  s.shows.find? (fun sh => sh.id == show_id)

/-- The queryset predicate `user=u, show=sid, status='booked'` used by
`book_seat` and `check_user_booking_limits` (`views.py`). -/
def isActiveUserBooking (u sid : Nat) (b : BookingRec) : Bool :=
  b.user_id == u && b.show_id == sid && b.status == .booked

/-- The queryset predicate `show=sid, seat_number=n, status='booked'` used by
`book_seat` (`views.py`) and `Booking.clean` (`models.py`). -/
def isActiveSeatBooking (sid : Nat) (n : Int) (b : BookingRec) : Bool :=
  b.show_id == sid && b.seat_number == n && b.status == .booked

/-- `check_user_booking_limits` (`views.py` lines 114-119): true iff the
user's count of status='booked' bookings for the show is below 5. -/
def check_user_booking_limits (s : Ledger) (u sid : Nat) : Bool :=
  decide (s.bookings.countP (isActiveUserBooking u sid) < 5)

/-- The booking row `book_seat` inserts on success (`views.py` lines
204-209 together with `Booking.save` filling `expires_at`). -/
def newBooking (s : Ledger) (u : Nat) (sh : ShowRec) (n : Int) : BookingRec :=
  { id := s.next_booking_id, user_id := u, show_id := sh.id, seat_number := n,
    status := .booked, cancelled_at := none, expires_at := some sh.date_time }

/-- The distinct failure responses of the `book_seat` view (`views.py`),
in source order.  `seat_exceeds_total` carries `show.total_seats` and
`user_already_booked` carries the seat already held, as the response
messages do. -/
inductive BookError where
  | show_not_found
  | invalid_seat_nonpositive
  | seat_exceeds_total (total : Nat)
  | past_show
  | booking_window_closed
  | user_already_booked (seat : Int)
  | user_limit_exceeded
  | seat_taken (by_user : Nat)
deriving DecidableEq, Repr

/-- The `book_seat` view (`views.py` lines 130-220), sequential semantics
(the request runs alone against the store).  The checks appear in source
order: show lookup; `seat_number <= 0`; `seat_number > show.total_seats`;
`show.date_time < now`; `now > show.date_time - 30min`; existing active
booking by this user for this show; `check_user_booking_limits`; existing
active booking for this (show, seat); then the insert inside
`transaction.atomic`.  `Booking.save`'s `full_clean`/`clean` re-checks are
provably redundant in this one-request-at-a-time semantics (the raced
two-snapshot variant is modelled separately as `book_seat_raced`). -/
def book_seat (s : Ledger) (u : Nat) (show_id : Nat) (seat_number : Int)
    (now : Int) : Except BookError (Ledger × BookingRec) :=
  match getShow s show_id with
  | none => .error .show_not_found
  | some sh =>
    if seat_number ≤ 0 then .error .invalid_seat_nonpositive
    else if (sh.total_seats : Int) < seat_number then
      .error (.seat_exceeds_total sh.total_seats)
    else if sh.date_time < now then .error .past_show
    else if sh.date_time - 30*60 < now then .error .booking_window_closed
    else
      match s.bookings.find? (isActiveUserBooking u sh.id) with
      | some eb => .error (.user_already_booked eb.seat_number)
      | none =>
        if check_user_booking_limits s u sh.id = false then
          .error .user_limit_exceeded
        else
          match s.bookings.find? (isActiveSeatBooking sh.id seat_number) with
          | some eb => .error (.seat_taken eb.user_id)
          | none =>
            .ok ({ s with bookings := s.bookings ++ [newBooking s u sh seat_number],
                          next_booking_id := s.next_booking_id + 1 },
                 newBooking s u sh seat_number)

/-- The distinct failure responses of the `cancel_booking` view
(`views.py` lines 230-268), in source order.  The view has no
already-expired branch; `show_missing` models a dangling foreign key
(impossible through the ORM, included to keep the lookup total), and
`save_clean_failed` models an uncaught `ValidationError` raised by
`Booking.full_clean` inside `booking.save()` (an HTTP 500, not a handled
response). -/
inductive CancelError where
  | booking_not_found
  | forbidden
  | already_cancelled
  | past_show
  | cancellation_window_closed
  | show_missing
  | save_clean_failed
deriving DecidableEq, Repr

/-- The cancelled row `cancel_booking` writes on success: the view sets
`status='cancelled'` and `Booking.save` (`models.py` lines 192-203) fills
`cancelled_at` and `expires_at` when unset. -/
def cancelledBooking (b : BookingRec) (sh : ShowRec) (now : Int) : BookingRec :=
  { b with status := .cancelled,
           cancelled_at :=
             match b.cancelled_at with
             | none => some now
             | some t => some t,
           expires_at :=
             match b.expires_at with
             | none => some sh.date_time
             | some t => some t }

/-- The `cancel_booking` view (`views.py` lines 230-268) followed by
`Booking.save` (`models.py` lines 192-203): checks in source order: booking
lookup; ownership; `status == 'cancelled'`; `show.date_time < now`;
`now > show.date_time - 2h`.  On the success path the view sets
`status='cancelled'` and calls `save()`, which fills `cancelled_at` and
`expires_at` when unset and runs `full_clean`; `Booking.clean`'s remaining
live checks (seat number exceeding `total_seats`, show already started with
`<=`) are modelled as `save_clean_failed`. -/
def cancel_booking (s : Ledger) (u : Nat) (booking_id : Nat)
    (now : Int) : Except CancelError (Ledger × BookingRec) :=
  match s.bookings.find? (fun b => b.id == booking_id) with
  | none => .error .booking_not_found
  | some b =>
    if b.user_id ≠ u then .error .forbidden
    else if b.status = .cancelled then .error .already_cancelled
    else
      match getShow s b.show_id with
      | none => .error .show_missing
      | some sh =>
        if sh.date_time < now then .error .past_show
        else if sh.date_time - 2*60*60 < now then
          .error .cancellation_window_closed
        else if b.seat_number ≠ 0 ∧ (sh.total_seats : Int) < b.seat_number then
          .error .save_clean_failed
        else if sh.date_time ≤ now then .error .save_clean_failed
        else
          .ok ({ s with bookings :=
                   s.bookings.map (fun x =>
                     if x.id == b.id then cancelledBooking b sh now else x) },
               cancelledBooking b sh now)

/-- The queryset filter `status='booked', show__date_time__lt=now` of the
expiry sweep (`utils.cleanup_expired_bookings`, and identically
`Command.handle` of the `cleanup_expired_bookings` management command).
The `show__date_time` lookup is an inner join on the booking's show. -/
def expireFilter (shows : List ShowRec) (now : Int) (b : BookingRec) : Bool :=
  b.status == .booked &&
    match shows.find? (fun sh => sh.id == b.show_id) with
    | some sh => decide (sh.date_time < now)
    | none => false

/-- `cleanup_expired_bookings` (`utils.py` lines 148-158): selects all
bookings with status='booked' whose show has started and bulk-updates their
status to 'expired' (`queryset.update` bypasses `save`, touching only the
status column); returns the new store and the row count the update reports. -/
def cleanup_expired_bookings (s : Ledger) (now : Int) : Ledger × Nat :=
  ({ s with bookings := s.bookings.map (fun b =>
       if expireFilter s.shows now b then { b with status := .expired } else b) },
   s.bookings.countP (expireFilter s.shows now))

/-- The rejection reasons of `ShowCreateSerializer` (`serializers.py`
lines 305-349). -/
inductive CreateShowError where
  | past_date_time
  | insufficient_advance
  | too_few_seats
  | too_many_seats
  | negative_price
  | price_too_high
  | screen_conflict
deriving DecidableEq, Repr

/-- `ShowCreateSerializer` (`serializers.py` lines 305-349): field
validators `validate_date_time` (`<= now` rejected; `< now + 1h` rejected),
`validate_total_seats` (`< 10` and `> 1000` rejected), `validate_price`
(`< 0` and `> 10000` rejected), then the object-level `validate` rejecting a
Show already occupying the same (screen_name, date_time) pair.  On success a
Show row is inserted with `is_active` defaulting to True (`models.py`). -/
def create_show (s : Ledger) (movie_id : Nat) (screen_name : String)
    (date_time : Int) (total_seats : Nat) (price : Int) (now : Int)
    (new_id : Nat) : Except CreateShowError (Ledger × ShowRec) :=
  if date_time ≤ now then .error .past_date_time
  else if date_time < now + 60*60 then .error .insufficient_advance
  else if total_seats < 10 then .error .too_few_seats
  else if 1000 < total_seats then .error .too_many_seats
  else if price < 0 then .error .negative_price
  else if 10000 < price then .error .price_too_high
  else if s.shows.any (fun sh =>
      sh.screen_name == screen_name && sh.date_time == date_time) then
    .error .screen_conflict
  else
    let sh : ShowRec :=
      { id := new_id, movie_id := movie_id, screen_name := screen_name,
        date_time := date_time, total_seats := total_seats, price := price,
        is_active := true }
    .ok ({ s with shows := s.shows ++ [sh] }, sh)

/-- `Show.available_seats` (`models.py` lines 68-71). -/
def available_seats (s : Ledger) (sh : ShowRec) : Int :=
  (sh.total_seats : Int) -
    s.bookings.countP (fun b => b.show_id == sh.id && b.status == .booked)

/-- `Show.is_bookable` (`models.py` lines 73-80): active flag, strictly
before the 30-minute deadline, and at least one seat available. -/
def is_bookable (s : Ledger) (sh : ShowRec) (now : Int) : Bool :=
  sh.is_active && decide (now < sh.date_time - 30*60) &&
    decide (0 < available_seats s sh)

/-- Two bookings claim the same seat of the same show while both active. -/
def activeConflict (b1 b2 : BookingRec) : Prop :=
  b1.status = .booked ∧ b2.status = .booked ∧
    b1.show_id = b2.show_id ∧ b1.seat_number = b2.seat_number

/-- The seat-uniqueness invariant: no two distinct bookings in the Ledger
are simultaneously status='booked' for the same (show, seat_number) —
`unique_active_booking_per_seat` in `Booking.Meta.constraints`
(`models.py` lines 135-141). -/
def seatUnique (s : Ledger) : Prop :=
  s.bookings.Pairwise (fun b1 b2 => ¬ activeConflict b1 b2)

/-- The state after a `book_seat` request: the new store on success, the
unchanged store on any error response. -/
def afterBook (s : Ledger) (u show_id : Nat) (seat_number now : Int) : Ledger :=
  match book_seat s u show_id seat_number now with
  | .ok (s', _) => s'
  | .error _ => s

/-- The state after a `cancel_booking` request: the new store on success,
the unchanged store on any error response. -/
def afterCancel (s : Ledger) (u booking_id : Nat) (now : Int) : Ledger :=
  match cancel_booking s u booking_id now with
  | .ok (s', _) => s'
  | .error _ => s

/-- The state after a `create_show` request. -/
def afterCreateShow (s : Ledger) (movie_id : Nat) (screen_name : String)
    (date_time : Int) (total_seats : Nat) (price : Int) (now : Int)
    (new_id : Nat) : Ledger :=
  match create_show s movie_id screen_name date_time total_seats price now new_id with
  | .ok (s', _) => s'
  | .error _ => s

/-- `true` iff the request produced a success response. -/
def exceptOk {ε α : Type} : Except ε α → Bool
  | .ok _ => true
  | .error _ => false

/-- Outcome of a `book_seat` request whose insert commits against a store
that other requests may have changed since the pre-checks ran. -/
inductive CommitOutcome where
  | created (ledger : Ledger) (b : BookingRec)
  | http_error (e : BookError)
  | uncaught_exception
deriving DecidableEq, Repr

/-- `book_seat` under a write-time race: all the view's checks (including
the in-transaction pre-check for an existing active booking of the seat)
observe `sPre`, but by the time `Booking.objects.create` runs,
`Booking.save`'s `full_clean` → `Booking.clean` (`models.py` lines 180-190)
and the `unique_active_booking_per_seat` constraint evaluate against the
ledger rows `commitBookings`.  The view wraps the create in no
`try`/`except`, so when the commit-time re-check finds a conflicting active
booking the raised `ValidationError`/`IntegrityError` propagates out of the
view (`uncaught_exception`, an HTTP 500), rather than becoming the seat-taken
response.  (`Booking.clean`'s other checks are implied by the pre-checks,
which evaluated the same show record and the same `now`.) -/
def book_seat_raced (sPre : Ledger) (commitBookings : List BookingRec)
    (u : Nat) (show_id : Nat) (seat_number : Int) (now : Int) : CommitOutcome :=
  match getShow sPre show_id with
  | none => .http_error .show_not_found
  | some sh =>
    if seat_number ≤ 0 then .http_error .invalid_seat_nonpositive
    else if (sh.total_seats : Int) < seat_number then
      .http_error (.seat_exceeds_total sh.total_seats)
    else if sh.date_time < now then .http_error .past_show
    else if sh.date_time - 30*60 < now then .http_error .booking_window_closed
    else
      match sPre.bookings.find? (isActiveUserBooking u sh.id) with
      | some eb => .http_error (.user_already_booked eb.seat_number)
      | none =>
        if check_user_booking_limits sPre u sh.id = false then
          .http_error .user_limit_exceeded
        else
          match sPre.bookings.find? (isActiveSeatBooking sh.id seat_number) with
          | some eb => .http_error (.seat_taken eb.user_id)
          | none =>
            if (commitBookings.find? (isActiveSeatBooking sh.id seat_number)).isSome then
              .uncaught_exception
            else
              .created { sPre with
                           bookings := commitBookings ++ [newBooking sPre u sh seat_number],
                           next_booking_id := sPre.next_booking_id + 1 }
                (newBooking sPre u sh seat_number)

/-! ### Concrete fixtures used by witnesses and counterexamples -/

/-- A show on screen "Screen 1" starting at time 100000 with 100 seats. -/
def showA : ShowRec :=
  { id := 1, movie_id := 1, screen_name := "Screen 1", date_time := 100000,
    total_seats := 100, price := 300, is_active := true }

/-- The same show with the active flag cleared. -/
def showInactive : ShowRec := { showA with id := 2, is_active := false }

/-- Store holding `showA` and no bookings. -/
def ledgerA : Ledger := { shows := [showA], bookings := [], next_booking_id := 1 }

/-- Store holding only the inactive show and no bookings. -/
def ledgerInactive : Ledger :=
  { shows := [showInactive], bookings := [], next_booking_id := 1 }

/-- An active booking by user 7 of seat 10 of `showA`. -/
def bookingA : BookingRec :=
  { id := 1, user_id := 7, show_id := 1, seat_number := 10, status := .booked,
    cancelled_at := none, expires_at := some 100000 }

/-- Store holding `showA` and the single active booking `bookingA`. -/
def ledgerB : Ledger :=
  { shows := [showA], bookings := [bookingA], next_booking_id := 2 }

/-- `bookingA` after the expiry sweep marked it expired. -/
def bookingExp : BookingRec := { bookingA with status := .expired }

/-- Store holding `showA` (now in the past) and the expired booking. -/
def ledgerExp : Ledger :=
  { shows := [showA], bookings := [bookingExp], next_booking_id := 2 }

/-- `bookingA` after a successful cancellation. -/
def bookingCan : BookingRec :=
  { bookingA with status := .cancelled, cancelled_at := some 50000 }

/-- Store holding `showA` and the cancelled booking. -/
def ledgerCan : Ledger :=
  { shows := [showA], bookings := [bookingCan], next_booking_id := 2 }

/-! ### Helper lemmas -/

theorem countP_zero_of_find?_none {α : Type} {p : α → Bool} {l : List α}
    (h : l.find? p = none) : l.countP p = 0 :=
  List.countP_eq_zero.mpr (List.find?_eq_none.mp h)

theorem getShow_id {s : Ledger} {sid : Nat} {sh : ShowRec}
    (h : getShow s sid = some sh) : sh.id = sid := by
  have := List.find?_some h
  simpa using this

/-- Mapping a function that fixes every booking it leaves active preserves
pairwise absence of active seat conflicts. -/
theorem pairwise_conflict_map (l : List BookingRec) (f : BookingRec → BookingRec)
    (hf : ∀ x, (f x).status = .booked → f x = x)
    (h : l.Pairwise (fun b1 b2 => ¬ activeConflict b1 b2)) :
    (l.map f).Pairwise (fun b1 b2 => ¬ activeConflict b1 b2) := by
  rw [List.pairwise_map]
  refine h.imp ?_
  intro a b hab hconf
  have ha := hf a hconf.1
  have hb := hf b hconf.2.1
  rw [ha, hb] at hconf
  exact hab hconf

/-- Success characterization of `book_seat`: when the show exists, the seat
number is valid, the call comes no later than 30 minutes before start, and
neither the caller nor the seat has an active booking, the view inserts the
new booking and returns it. -/
theorem book_seat_ok (s : Ledger) (u show_id : Nat) (n now : Int) (sh : ShowRec)
    (hsh : getShow s show_id = some sh)
    (hn0 : 0 < n) (hnt : n ≤ (sh.total_seats : Int))
    (hwin : now ≤ sh.date_time - 30*60)
    (huser : s.bookings.find? (isActiveUserBooking u sh.id) = none)
    (hseat : s.bookings.find? (isActiveSeatBooking sh.id n) = none) :
    book_seat s u show_id n now =
      .ok ({ s with bookings := s.bookings ++ [newBooking s u sh n],
                    next_booking_id := s.next_booking_id + 1 },
           newBooking s u sh n) := by
  have hcnt : s.bookings.countP (isActiveUserBooking u sh.id) = 0 :=
    countP_zero_of_find?_none huser
  have hchk : check_user_booking_limits s u sh.id = true := by
    simp [check_user_booking_limits, hcnt]
  simp only [book_seat, hsh]
  rw [if_neg (by omega), if_neg (by omega), if_neg (by omega), if_neg (by omega)]
  simp only [huser]
  rw [if_neg (by simp [hchk])]
  simp only [hseat]

/-- Past the 30-minute deadline (but not past the show itself) `book_seat`
returns the booking-window-closed response. -/
theorem book_seat_window_closed (s : Ledger) (u show_id : Nat) (n now : Int)
    (sh : ShowRec) (hsh : getShow s show_id = some sh)
    (hn0 : 0 < n) (hnt : n ≤ (sh.total_seats : Int))
    (hlate : sh.date_time - 30*60 < now) (hnp : now ≤ sh.date_time) :
    book_seat s u show_id n now = .error .booking_window_closed := by
  simp only [book_seat, hsh]
  rw [if_neg (by omega), if_neg (by omega), if_neg (by omega), if_pos hlate]

/-- Success characterization of `cancel_booking`: ownership, an
uncancelled status, a seat within range and a call no later than 2 hours
before start produce the cancelled row. -/
theorem cancel_booking_ok (s : Ledger) (u bid : Nat) (now : Int)
    (b : BookingRec) (sh : ShowRec)
    (hfind : s.bookings.find? (fun x => x.id == bid) = some b)
    (hu : b.user_id = u) (hst : b.status ≠ .cancelled)
    (hshow : getShow s b.show_id = some sh)
    (hseat : b.seat_number ≤ (sh.total_seats : Int))
    (hwin : now ≤ sh.date_time - 2*60*60) :
    cancel_booking s u bid now =
      .ok ({ s with bookings := s.bookings.map (fun x =>
               if x.id == b.id then cancelledBooking b sh now else x) },
           cancelledBooking b sh now) := by
  simp only [cancel_booking, hfind, hshow]
  rw [if_neg (by simp [hu]), if_neg hst, if_neg (by omega), if_neg (by omega),
    if_neg (fun hc => absurd hc.2 (not_lt.mpr hseat)), if_neg (by omega)]

/-- Inversion of a successful `book_seat`: the result can only arise from
the final insert branch, so the seat had no active booking and the store
grew by exactly the new row. -/
theorem book_seat_ok_inv {s : Ledger} {u show_id : Nat} {n now : Int}
    {s' : Ledger} {nb : BookingRec}
    (h : book_seat s u show_id n now = .ok (s', nb)) :
    ∃ sh, getShow s show_id = some sh ∧
      s.bookings.find? (isActiveSeatBooking sh.id n) = none ∧
      s' = { s with bookings := s.bookings ++ [newBooking s u sh n],
                    next_booking_id := s.next_booking_id + 1 } ∧
      nb = newBooking s u sh n := by
  unfold book_seat at h
  split at h
  · exact absurd h (by simp)
  next sh hsh =>
    refine ⟨sh, hsh, ?_⟩
    split at h
    · exact absurd h (by simp)
    split at h
    · exact absurd h (by simp)
    split at h
    · exact absurd h (by simp)
    split at h
    · exact absurd h (by simp)
    split at h
    · exact absurd h (by simp)
    next hnone =>
      split at h
      · exact absurd h (by simp)
      split at h
      · exact absurd h (by simp)
      next hseat =>
        obtain ⟨h1, h2⟩ : _ ∧ _ := by simpa using h
        exact ⟨hseat, h1.symm, h2.symm⟩

/-- Inversion of a successful `cancel_booking`: the returned row is
cancelled and the store update rewrites exactly the rows matching one
booking id to that cancelled row. -/
theorem cancel_booking_ok_inv {s : Ledger} {u bid : Nat} {now : Int}
    {s' : Ledger} {c : BookingRec}
    (h : cancel_booking s u bid now = .ok (s', c)) :
    c.status = .cancelled ∧ s'.shows = s.shows ∧
      ∃ b0 : BookingRec, s'.bookings =
        s.bookings.map (fun x => if x.id == b0.id then c else x) := by
  unfold cancel_booking at h
  cases hfind : s.bookings.find? (fun x => x.id == bid) with
  | none => rw [hfind] at h; exact absurd h (by simp)
  | some b =>
    rw [hfind] at h
    simp only [] at h
    split at h
    · exact absurd h (by simp)
    split at h
    · exact absurd h (by simp)
    cases hshow : getShow s b.show_id with
    | none => rw [hshow] at h; exact absurd h (by simp)
    | some sh =>
      rw [hshow] at h
      simp only [] at h
      split at h
      · exact absurd h (by simp)
      split at h
      · exact absurd h (by simp)
      split at h
      · exact absurd h (by simp)
      split at h
      · exact absurd h (by simp)
      rw [Except.ok.injEq, Prod.mk.injEq] at h
      obtain ⟨h1, h2⟩ := h
      subst h2
      exact ⟨rfl, by rw [← h1], b, by rw [← h1]⟩

/-- Inversion of a successful `create_show`: every field-level and
object-level rejection condition of `ShowCreateSerializer` was false. -/
theorem create_show_ok_inv {s : Ledger} {movie_id : Nat} {screen_name : String}
    {date_time : Int} {total_seats : Nat} {price : Int} {now : Int}
    {new_id : Nat} {p : Ledger × ShowRec}
    (h : create_show s movie_id screen_name date_time total_seats price now
          new_id = .ok p) :
    now < date_time ∧ now + 60*60 ≤ date_time ∧
      10 ≤ total_seats ∧ total_seats ≤ 1000 ∧
      (s.shows.any fun sh =>
        sh.screen_name == screen_name && sh.date_time == date_time) = false := by
  unfold create_show at h
  split at h
  · exact absurd h (by simp)
  next h1 =>
    split at h
    · exact absurd h (by simp)
    next h2 =>
      split at h
      · exact absurd h (by simp)
      next h3 =>
        split at h
        · exact absurd h (by simp)
        next h4 =>
          split at h
          · exact absurd h (by simp)
          split at h
          · exact absurd h (by simp)
          split at h
          · exact absurd h (by simp)
          next h7 =>
            exact ⟨by omega, by omega, by omega, by omega, by simpa using h7⟩

/-! ### Claim theorems -/

/-- C1: every operation of the reservation core — `book_seat`,
`cancel_booking` and the expiry sweep `cleanup_expired_bookings` — preserves
the seat-uniqueness invariant: at most one booking with status='booked'
exists per (show, seat_number). -/
theorem seat_uniqueness_preserved (s : Ledger) (h : seatUnique s)
    (u1 sid : Nat) (n now1 : Int) (u2 bid : Nat) (now2 now3 : Int) :
    seatUnique (afterBook s u1 sid n now1) ∧
    seatUnique (afterCancel s u2 bid now2) ∧
    seatUnique (cleanup_expired_bookings s now3).1 := by
  refine ⟨?_, ?_, ?_⟩
  · unfold afterBook
    cases hres : book_seat s u1 sid n now1 with
    | error e => exact h
    | ok p =>
      obtain ⟨s', nb⟩ := p
      obtain ⟨sh, hsh, hfind, hs', hnb⟩ := book_seat_ok_inv hres
      subst hs'
      unfold seatUnique
      rw [List.pairwise_append]
      refine ⟨h, List.pairwise_singleton _ _, ?_⟩
      intro a ha x hx
      rw [List.mem_singleton] at hx
      subst hx
      intro hconf
      have hfa := List.find?_eq_none.mp hfind a ha
      apply hfa
      obtain ⟨h1, h2, h3, h4⟩ := hconf
      simp only [newBooking] at h3 h4
      simp [isActiveSeatBooking, h1, h3, h4]
  · unfold afterCancel
    cases hres : cancel_booking s u2 bid now2 with
    | error e => exact h
    | ok p =>
      obtain ⟨s', c⟩ := p
      obtain ⟨hc, hshows, b0, hbk⟩ := cancel_booking_ok_inv hres
      unfold seatUnique
      rw [hbk]
      refine pairwise_conflict_map _ _ ?_ h
      intro x hx
      by_cases hid : (x.id == b0.id) = true
      · rw [if_pos hid] at hx
        rw [hc] at hx
        simp at hx
      · rw [if_neg hid]
  · unfold cleanup_expired_bookings seatUnique
    refine pairwise_conflict_map _ _ ?_ h
    intro x hx
    by_cases hp : expireFilter s.shows now3 x = true
    · rw [if_pos hp] at hx
      simp at hx
    · rw [if_neg hp]

/-- Witness for C1 at a concrete store: one active booking, exercising a
successful further booking, a successful cancellation and the sweep. -/
theorem seat_uniqueness_preserved_witness :
    seatUnique (afterBook ledgerB 8 1 11 90000) ∧
    seatUnique (afterCancel ledgerB 7 1 90000) ∧
    seatUnique (cleanup_expired_bookings ledgerB 200000).1 :=
  seat_uniqueness_preserved ledgerB
    (by unfold seatUnique; exact List.pairwise_singleton _ _)
    8 1 11 90000 7 1 90000 200000

/-- C7: the expiry sweep is idempotent — immediately re-running
`cleanup_expired_bookings` at the same instant changes no booking and
reports zero updated rows. -/
theorem expire_due_idempotent (s : Ledger) (now : Int) :
    cleanup_expired_bookings (cleanup_expired_bookings s now).1 now =
      ((cleanup_expired_bookings s now).1, 0) := by
  have key : ∀ b : BookingRec, expireFilter s.shows now
      (if expireFilter s.shows now b then { b with status := .expired } else b)
        = false := by
    intro b
    by_cases hp : expireFilter s.shows now b = true
    · rw [if_pos hp]
      simp [expireFilter]
    · rw [if_neg hp]
      simpa using hp
  unfold cleanup_expired_bookings
  dsimp only
  have hmap : (s.bookings.map (fun b =>
      if expireFilter s.shows now b then { b with status := .expired } else b)).map
        (fun b =>
          if expireFilter s.shows now b then { b with status := .expired } else b) =
      s.bookings.map (fun b =>
        if expireFilter s.shows now b then { b with status := .expired } else b) := by
    rw [List.map_congr_left, List.map_id]
    intro x hx
    obtain ⟨b, hb, rfl⟩ := List.mem_map.mp hx
    simp only [id]
    rw [if_neg (by simp [key b])]
  have hcnt : (s.bookings.map (fun b =>
      if expireFilter s.shows now b then { b with status := .expired } else b)).countP
        (expireFilter s.shows now) = 0 := by
    refine List.countP_eq_zero.mpr ?_
    intro a ha
    obtain ⟨b, hb, rfl⟩ := List.mem_map.mp ha
    simp [key b]
  rw [hmap, hcnt]

/-- C10: the maximum-5-seats branch of `book_seat` is unreachable — the
one-active-booking-per-user check precedes `check_user_booking_limits` and
uses the same queryset predicate, so the count is always 0 at that point
and no `book_seat` call returns the user-limit error. -/
theorem user_limit_unreachable (s : Ledger) (u show_id : Nat) (n now : Int) :
    book_seat s u show_id n now ≠ .error .user_limit_exceeded := by
  unfold book_seat
  split
  · simp
  next sh hsh =>
    split
    · simp
    split
    · simp
    split
    · simp
    split
    · simp
    split
    · simp
    next hnone =>
      split
      next hchk =>
        exfalso
        have h0 : s.bookings.countP (isActiveUserBooking u sh.id) = 0 :=
          countP_zero_of_find?_none hnone
        simp [check_user_booking_limits, h0] at hchk
      next =>
        split
        · simp
        · simp

/-- Past the 2-hour deadline (but not past the show itself) `cancel_booking`
returns the cancellation-window-closed response. -/
theorem cancel_booking_window_closed (s : Ledger) (u bid : Nat) (now : Int)
    (b : BookingRec) (sh : ShowRec)
    (hfind : s.bookings.find? (fun x => x.id == bid) = some b)
    (hu : b.user_id = u) (hst : b.status ≠ .cancelled)
    (hshow : getShow s b.show_id = some sh)
    (hlate : sh.date_time - 2*60*60 < now) (hnp : now ≤ sh.date_time) :
    cancel_booking s u bid now = .error .cancellation_window_closed := by
  simp only [cancel_booking, hfind, hshow]
  rw [if_neg (by simp [hu]), if_neg hst, if_neg (by omega), if_pos hlate]

/-- C2 (code bug): when the write-time uniqueness re-check rejects the
insert — the pre-checks saw no conflicting row but a conflicting active
booking exists at commit time — the view returns no seat-taken response:
the rejection propagates as an uncaught exception (`views.py` wraps
`Booking.objects.create` in no `try`/`except`), unlike the pre-check path,
which returns the uniform seat-taken error (third conjunct). -/
theorem race_rejection_uncaught :
    book_seat_raced ledgerA [bookingA] 8 1 10 90000 = .uncaught_exception ∧
    (∀ e : BookError,
      book_seat_raced ledgerA [bookingA] 8 1 10 90000 ≠ .http_error e) ∧
    book_seat ledgerB 8 1 10 90000 = .error (.seat_taken 7) := by
  have h0 : book_seat_raced ledgerA [bookingA] 8 1 10 90000 =
      .uncaught_exception := by rfl
  refine ⟨h0, fun e he => ?_, by rfl⟩
  rw [h0] at he
  exact absurd he (by simp)

/-- C3 counterexample: at exactly `start_time - 30min` (98200 = 100000 -
1800) `book_seat` succeeds on a free seat, whereas the claim says the call
fails with the booking-window-closed error (`views.py` line 170 rejects
only `now > deadline`). -/
theorem booking_cutoff_claim_counterexample :
    showA.date_time - 30*60 = 98200 ∧
    exceptOk (book_seat ledgerA 7 1 10 98200) = true := by
  exact ⟨by decide, by rfl⟩

/-- C3 amended: with the seat valid and free and no prior booking by the
caller, `book_seat` succeeds at exactly `start_time - 30min` and at
`start_time - 30min - 1s`, and fails with the booking-window-closed error
only strictly after the cutoff, e.g. at `start_time - 30min + 1s`. -/
theorem booking_cutoff_amended (s : Ledger) (u show_id : Nat) (n : Int)
    (sh : ShowRec) (hsh : getShow s show_id = some sh)
    (hn0 : 0 < n) (hnt : n ≤ (sh.total_seats : Int))
    (huser : s.bookings.find? (isActiveUserBooking u sh.id) = none)
    (hseat : s.bookings.find? (isActiveSeatBooking sh.id n) = none) :
    exceptOk (book_seat s u show_id n (sh.date_time - 30*60)) = true ∧
    book_seat s u show_id n (sh.date_time - 30*60 + 1) =
      .error .booking_window_closed ∧
    exceptOk (book_seat s u show_id n (sh.date_time - 30*60 - 1)) = true := by
  refine ⟨?_, ?_, ?_⟩
  · rw [book_seat_ok s u show_id n _ sh hsh hn0 hnt (by omega) huser hseat]
    rfl
  · exact book_seat_window_closed s u show_id n _ sh hsh hn0 hnt (by omega)
      (by omega)
  · rw [book_seat_ok s u show_id n _ sh hsh hn0 hnt (by omega) huser hseat]
    rfl

/-- Witness for the amended C3 at the concrete empty store `ledgerA`. -/
theorem booking_cutoff_amended_witness :
    exceptOk (book_seat ledgerA 7 1 10 (showA.date_time - 30*60)) = true ∧
    book_seat ledgerA 7 1 10 (showA.date_time - 30*60 + 1) =
      .error .booking_window_closed ∧
    exceptOk (book_seat ledgerA 7 1 10 (showA.date_time - 30*60 - 1)) = true :=
  booking_cutoff_amended ledgerA 7 1 10 showA (by rfl) (by decide) (by decide)
    (by rfl) (by rfl)

/-- C4 counterexample: at exactly `start_time - 2h` (92800 = 100000 - 7200)
`cancel_booking` succeeds on the caller's active booking, whereas the claim
says the call fails with the cancellation-window-closed error (`views.py`
line 254 rejects only `now > deadline`). -/
theorem cancellation_deadline_claim_counterexample :
    showA.date_time - 2*60*60 = 92800 ∧
    exceptOk (cancel_booking ledgerB 7 1 92800) = true := by
  exact ⟨by decide, by rfl⟩

/-- C4 amended: on the caller's own active booking, `cancel_booking`
succeeds at exactly `start_time - 2h` and at `start_time - 2h - 1s`, and
fails with the cancellation-window-closed error only strictly after the
deadline, e.g. at `start_time - 2h + 1s`. -/
theorem cancellation_deadline_amended (s : Ledger) (u bid : Nat)
    (b : BookingRec) (sh : ShowRec)
    (hfind : s.bookings.find? (fun x => x.id == bid) = some b)
    (hu : b.user_id = u) (hst : b.status = .booked)
    (hshow : getShow s b.show_id = some sh)
    (hseat : b.seat_number ≤ (sh.total_seats : Int)) :
    exceptOk (cancel_booking s u bid (sh.date_time - 2*60*60)) = true ∧
    cancel_booking s u bid (sh.date_time - 2*60*60 + 1) =
      .error .cancellation_window_closed ∧
    exceptOk (cancel_booking s u bid (sh.date_time - 2*60*60 - 1)) = true := by
  have hst' : b.status ≠ .cancelled := by rw [hst]; simp
  refine ⟨?_, ?_, ?_⟩
  · rw [cancel_booking_ok s u bid _ b sh hfind hu hst' hshow hseat (by omega)]
    rfl
  · exact cancel_booking_window_closed s u bid _ b sh hfind hu hst' hshow
      (by omega) (by omega)
  · rw [cancel_booking_ok s u bid _ b sh hfind hu hst' hshow hseat (by omega)]
    rfl

/-- Witness for the amended C4 at the concrete store `ledgerB`. -/
theorem cancellation_deadline_amended_witness :
    exceptOk (cancel_booking ledgerB 7 1 (showA.date_time - 2*60*60)) = true ∧
    cancel_booking ledgerB 7 1 (showA.date_time - 2*60*60 + 1) =
      .error .cancellation_window_closed ∧
    exceptOk (cancel_booking ledgerB 7 1 (showA.date_time - 2*60*60 - 1)) =
      true :=
  cancellation_deadline_amended ledgerB 7 1 bookingA showA (by rfl) rfl rfl
    (by rfl) (by decide)

/-- C5 counterexample: for a booking with status='expired' (whose show has
started, the only way the sweep produces one), `cancel_booking` fails with
the past-show response, not an already-expired error — the view
(`views.py` lines 243-251) checks only `status == 'cancelled'` and has no
already-expired branch at all (no such constructor exists in
`CancelError`). -/
theorem cancel_expired_claim_counterexample :
    bookingExp.status = .expired ∧
    cancel_booking ledgerExp 7 1 200000 = .error .past_show ∧
    CancelError.past_show ≠ CancelError.already_cancelled := by
  exact ⟨rfl, by rfl, by simp⟩

/-- C5 amended: a cancelled booking is rejected with the already-cancelled
error; an expired booking whose show has started (every sweep-produced one)
is rejected by the past-show guard instead of a dedicated already-expired
error.  Both failures leave the store unchanged. -/
theorem cancel_noncancellable_amended :
    (∀ (s : Ledger) (u bid : Nat) (now : Int) (b : BookingRec),
       s.bookings.find? (fun x => x.id == bid) = some b →
       b.user_id = u → b.status = .cancelled →
       cancel_booking s u bid now = .error .already_cancelled ∧
         afterCancel s u bid now = s) ∧
    (∀ (s : Ledger) (u bid : Nat) (now : Int) (b : BookingRec) (sh : ShowRec),
       s.bookings.find? (fun x => x.id == bid) = some b →
       b.user_id = u → b.status = .expired →
       getShow s b.show_id = some sh → sh.date_time < now →
       cancel_booking s u bid now = .error .past_show ∧
         afterCancel s u bid now = s) := by
  constructor
  · intro s u bid now b hfind hu hst
    have h1 : cancel_booking s u bid now = .error .already_cancelled := by
      simp only [cancel_booking, hfind]
      rw [if_neg (by simp [hu]), if_pos hst]
    exact ⟨h1, by unfold afterCancel; rw [h1]⟩
  · intro s u bid now b sh hfind hu hst hshow hpast
    have h1 : cancel_booking s u bid now = .error .past_show := by
      simp only [cancel_booking, hfind, hshow]
      rw [if_neg (by simp [hu]), if_neg (by rw [hst]; simp), if_pos hpast]
    exact ⟨h1, by unfold afterCancel; rw [h1]⟩

/-- Witness for the amended C5: a cancelled booking and a sweep-expired
booking, both rejected with the store unchanged. -/
theorem cancel_noncancellable_amended_witness :
    (cancel_booking ledgerCan 7 1 60000 = .error .already_cancelled ∧
      afterCancel ledgerCan 7 1 60000 = ledgerCan) ∧
    (cancel_booking ledgerExp 7 1 200000 = .error .past_show ∧
      afterCancel ledgerExp 7 1 200000 = ledgerExp) :=
  ⟨cancel_noncancellable_amended.1 ledgerCan 7 1 60000 bookingCan (by rfl)
     rfl rfl,
   cancel_noncancellable_amended.2 ledgerExp 7 1 200000 bookingExp showA
     (by rfl) rfl rfl (by rfl) (by decide)⟩

/-- C6 counterexample: user 7 holds active `bookingA` for show 1, yet
`book_seat` with seat number 0 fails with the invalid-seat response, not
the user-already-booked one — the generic request checks run first
(`views.py` lines 140-173). -/
theorem user_already_booked_claim_counterexample :
    bookingA.status = .booked ∧ bookingA.user_id = 7 ∧
    book_seat ledgerB 7 1 0 90000 = .error .invalid_seat_nonpositive ∧
    ∀ k : Int, book_seat ledgerB 7 1 0 90000 ≠
      .error (.user_already_booked k) := by
  have h0 : book_seat ledgerB 7 1 0 90000 =
      .error .invalid_seat_nonpositive := by rfl
  refine ⟨rfl, rfl, h0, fun k hk => ?_⟩
  rw [h0] at hk
  exact absurd hk (by simp)

/-- C6 amended: while a user holds an active booking for a show, every
further `book_seat` call for that show that passes the generic request
checks (valid seat number, show not started, booking window open) fails
with the user-already-booked error reporting the seat already held; and as
soon as the user holds no active booking for the show (e.g. after
cancellation or expiry) no call returns that error. -/
theorem user_already_booked_amended :
    (∀ (s : Ledger) (u show_id : Nat) (n now : Int) (sh : ShowRec)
       (eb : BookingRec),
       getShow s show_id = some sh → 0 < n → n ≤ (sh.total_seats : Int) →
       now ≤ sh.date_time - 30*60 →
       s.bookings.find? (isActiveUserBooking u sh.id) = some eb →
       book_seat s u show_id n now =
         .error (.user_already_booked eb.seat_number)) ∧
    (∀ (s : Ledger) (u show_id : Nat) (n now k : Int),
       (∀ b ∈ s.bookings, isActiveUserBooking u show_id b = false) →
       book_seat s u show_id n now ≠ .error (.user_already_booked k)) := by
  constructor
  · intro s u show_id n now sh eb hsh hn0 hnt hwin hfind
    simp only [book_seat, hsh]
    rw [if_neg (by omega), if_neg (by omega), if_neg (by omega),
      if_neg (by omega)]
    simp only [hfind]
  · intro s u show_id n now k hnone
    unfold book_seat
    split
    · simp
    next sh hsh =>
      have hid : sh.id = show_id := getShow_id hsh
      have hfind : s.bookings.find? (isActiveUserBooking u sh.id) = none := by
        rw [List.find?_eq_none]
        intro x hx
        rw [hid]
        simp [hnone x hx]
      split
      · simp
      split
      · simp
      split
      · simp
      split
      · simp
      split
      next eb heb =>
        rw [hfind] at heb
        exact absurd heb (by simp)
      next =>
        split
        · simp
        split
        · simp
        · simp

/-- Witness for the amended C6: user 7 holds seat 10 of show 1, so booking
seat 2 reports the held seat; on the empty store the error never occurs. -/
theorem user_already_booked_amended_witness :
    book_seat ledgerB 7 1 2 90000 =
      .error (.user_already_booked bookingA.seat_number) ∧
    book_seat ledgerA 7 1 2 90000 ≠ .error (.user_already_booked 10) :=
  ⟨user_already_booked_amended.1 ledgerB 7 1 2 90000 showA bookingA (by rfl)
     (by decide) (by decide) (by decide) (by rfl),
   user_already_booked_amended.2 ledgerA 7 1 2 90000 10
     (by intro b hb; simp [ledgerA] at hb)⟩

/-- C8: `ShowCreateSerializer` rejects every input with a non-future start
time, with less than one hour of advance notice, with a (screen, start
time) pair already taken, or with a seat count outside [10, 1000]; on every
such input no Show row is created. -/
theorem show_creation_rejects_invalid (s : Ledger) (movie_id : Nat)
    (screen_name : String) (date_time : Int) (total_seats : Nat) (price : Int)
    (now : Int) (new_id : Nat)
    (h : date_time ≤ now ∨ date_time < now + 60*60 ∨ total_seats < 10 ∨
         1000 < total_seats ∨
         (s.shows.any fun sh =>
           sh.screen_name == screen_name && sh.date_time == date_time) = true) :
    (∃ e, create_show s movie_id screen_name date_time total_seats price now
            new_id = .error e) ∧
    afterCreateShow s movie_id screen_name date_time total_seats price now
      new_id = s := by
  cases hres : create_show s movie_id screen_name date_time total_seats price
      now new_id with
  | ok p =>
    exfalso
    obtain ⟨h1, h2, h3, h4, h5⟩ := create_show_ok_inv hres
    rcases h with h | h | h | h | h
    · omega
    · omega
    · omega
    · omega
    · rw [h5] at h
      exact absurd h (by simp)
  | error e =>
    exact ⟨⟨e, rfl⟩, by unfold afterCreateShow; rw [hres]⟩

/-- Witness for C8: a start time already in the past is rejected and the
store keeps its single show. -/
theorem show_creation_rejects_invalid_witness :
    (∃ e, create_show ledgerA 1 "Screen 9" 500 50 300 1000 5 = .error e) ∧
    afterCreateShow ledgerA 1 "Screen 9" 500 50 300 1000 5 = ledgerA :=
  show_creation_rejects_invalid ledgerA 1 "Screen 9" 500 50 300 1000 5
    (Or.inl (by decide))

/-- C9: `book_seat` never consults the show's active flag — on an inactive
show whose other preconditions hold it creates a status='booked' row, even
though the model's own `is_bookable` predicate is false for that show
(`views.py` never calls `BookSeatSerializer.validate_seat_number`, the only
place the flag is checked). -/
theorem book_ignores_is_active (s : Ledger) (u show_id : Nat) (n now : Int)
    (sh : ShowRec) (hsh : getShow s show_id = some sh)
    (hinactive : sh.is_active = false)
    (hn0 : 0 < n) (hnt : n ≤ (sh.total_seats : Int))
    (hfuture : now < sh.date_time - 30*60)
    (huser : s.bookings.find? (isActiveUserBooking u sh.id) = none)
    (hseat : s.bookings.find? (isActiveSeatBooking sh.id n) = none) :
    (∃ s', book_seat s u show_id n now = .ok (s', newBooking s u sh n)) ∧
    (newBooking s u sh n).status = .booked ∧
    is_bookable s sh now = false := by
  exact ⟨⟨_, book_seat_ok s u show_id n now sh hsh hn0 hnt (by omega) huser
      hseat⟩, rfl, by simp [is_bookable, hinactive]⟩

/-- Witness for C9 on the concrete store holding only the inactive show. -/
theorem book_ignores_is_active_witness :
    (∃ s', book_seat ledgerInactive 7 2 10 90000 =
       .ok (s', newBooking ledgerInactive 7 showInactive 10)) ∧
    (newBooking ledgerInactive 7 showInactive 10).status = .booked ∧
    is_bookable ledgerInactive showInactive 90000 = false :=
  book_ignores_is_active ledgerInactive 7 2 10 90000 showInactive (by rfl)
    (by rfl) (by decide) (by decide) (by decide) (by rfl) (by rfl)
